import Mathlib

/-!
Shallow embedding of the Reachy Mini interactive-chat controller
(src/interactive_chat.py and src/voice_interaction.py) and proofs about
its turn orchestration, animation, recording, history and text handling.

External collaborators (Whisper transcription, the Groq chat model and
the Azure synthesizer) are modelled by stub parameters carrying the value
the backend returns, or an error marker when the backend raises.  Robot
motion, console output, audio playback and thread spawns are recorded as
an ordered list of `Action` values.  Background threads are modelled by
live-thread counters plus explicit scheduler events, so that a concrete
event list denotes one legal interleaving of the Python program.
-/

namespace Reachy

/-- Observable side effect of the controller: a motion command issued to the
robot, a sleep, console output, synthesized speech, a request to the chat
model, or a daemon-thread spawn. -/
inductive Action where
  | gotoTarget (pose : String)
  | sleepMs (ms : Nat)
  | consolePrint (msg : String)
  | speak (text : String)
  | llmCall (text : String)
  | spawnGesture (cue : String)
  | spawnSpeakingAnim
  | spawnProcessJob
  | spawnRecordLoop
  | unlinkTempFile
deriving DecidableEq

/-- One entry of the conversation history kept by `ConversationLLM`:
a role ("user", "assistant" or "system") and the message content. -/
structure Msg where
  role : String
  content : String
deriving DecidableEq

/-- Python whitespace characters recognised by str.strip(): space, tab,
newline, carriage return, vertical tab (11) and form feed (12). -/
def isPySpace (c : Char) : Bool :=
  c == ' ' || c == '\t' || c == '\n' || c == '\r' || c.toNat == 11 || c.toNat == 12

/-- Drop the maximal run of whitespace characters at the head of a list. -/
def dropLeadWS : List Char → List Char
  | [] => []
  | c :: cs => if isPySpace c then dropLeadWS cs else c :: cs

/-- Drop the maximal run of whitespace characters at the end of a list. -/
def dropTrailWS (l : List Char) : List Char :=
  (dropLeadWS l.reverse).reverse

/-- Strip whitespace from both ends of a character list. -/
def stripL (l : List Char) : List Char :=
  dropLeadWS (dropTrailWS l)

/-- Python str.strip() with no argument: remove leading and trailing
whitespace. -/
def pyStrip (s : String) : String :=
  String.mk (stripL s.data)

/-- Python str.lower(), restricted to the ASCII range used by this program. -/
def pyLower (s : String) : String :=
  String.mk (s.data.map Char.toLower)

/-- Whether the first list is a character-by-character prefix of the second. -/
def isPrefAt : List Char → List Char → Bool
  | [], _ => true
  | _ :: _, [] => false
  | x :: xs, y :: ys => x == y && isPrefAt xs ys

/-- Whether `needle` occurs as a contiguous segment of `hay`
(second argument is the needle). -/
def hasSub : List Char → List Char → Bool
  | [], needle => needle.isEmpty
  | c :: t, needle => isPrefAt needle (c :: t) || hasSub t needle

/-- The Python expression `needle in hay` on strings: substring containment. -/
def pyIn (needle hay : String) : Bool :=
  hasSub hay.data needle.data

/-- The goodbye lexicon of InteractiveChat._process_audio (line 279). -/
def goodbyeWords : List String :=
  ["bye", "goodbye", "see you", "quit", "exit"]

/-- The goodbye test of InteractiveChat._process_audio:
`any(word in text.lower() for word in [...])`. -/
def isGoodbye (text : String) : Bool :=
  goodbyeWords.any (fun w => pyIn w (pyLower text))

/-- SpeechToText.transcribe: the Whisper backend produces `rawText`
(the value of `result["text"]`); the wrapper returns it stripped. -/
def SpeechToText.transcribe (rawText : String) : String :=
  pyStrip rawText

/-- The system-prompt message prepended to every chat request.  The prompt
content does not influence any control flow, so it is abbreviated here. -/
def systemPromptMsg : Msg :=
  { role := "system", content := "care home companion system prompt" }

/-- The Python slice `l[-n:]`: the last `n` elements of the list. -/
def lastN (n : Nat) (l : List Msg) : List Msg :=
  l.drop (l.length - n)

/-- ConversationLLM.chat.  `hist` is `self.conversation_history` before the
call, `userMessage` the user text, `assistantReply` the stub for the content
returned by the Groq completion.  Returns the stored history after the call
and the message list sent to the model: the system prompt followed by the
last ten stored entries (`self.conversation_history[-10:]`). -/
def ConversationLLM.chat (hist : List Msg) (userMessage assistantReply : String) :
    List Msg × List Msg :=
  let h1 := hist ++ [{ role := "user", content := userMessage }]
  let sent := systemPromptMsg :: lastN 10 h1
  (h1 ++ [{ role := "assistant", content := assistantReply }], sent)

/-- RobotExpressions state: the `_speaking` and `_listening` flags plus the
number of live `_speaking_animation` daemon threads (a modelling counter for
threads spawned by `speaking_start` that have not yet observed the cleared
flag and exited). -/
structure RobotExpressions where
  speaking : Bool
  listening : Bool
  liveSpeakAnimThreads : Nat
deriving DecidableEq

/-- Motion commands of RobotExpressions.idle. -/
def idleActs : List Action :=
  [Action.gotoTarget "head neutral antennas 0 0 dur 0.5"]

/-- RobotExpressions.idle: return to the neutral position. -/
def RobotExpressions.idle (e : RobotExpressions) : RobotExpressions × List Action :=
  (e, idleActs)

/-- Motion commands of RobotExpressions.listening_start. -/
def listeningStartActs : List Action :=
  [Action.gotoTarget "head roll 8 deg antennas 0.3 0.3 dur 0.4"]

/-- RobotExpressions.listening_start: set `_listening` and take the
attentive pose. -/
def RobotExpressions.listening_start (e : RobotExpressions) :
    RobotExpressions × List Action :=
  ({ e with listening := true }, listeningStartActs)

/-- RobotExpressions.listening_stop: clear `_listening` and go idle. -/
def RobotExpressions.listening_stop (e : RobotExpressions) :
    RobotExpressions × List Action :=
  ({ e with listening := false }, idleActs)

/-- Motion commands of RobotExpressions.thinking. -/
def thinkingActs : List Action :=
  [Action.gotoTarget "head z 15 roll neg10 deg antennas 0.2 neg0.2 dur 0.5",
   Action.sleepMs 300]

/-- RobotExpressions.thinking. -/
def RobotExpressions.thinking (e : RobotExpressions) :
    RobotExpressions × List Action :=
  (e, thinkingActs)

/-- RobotExpressions.speaking_start: set `_speaking` and spawn a new
`_speaking_animation` daemon thread.  It does not cancel, await or even
consult any previously running animation thread. -/
def RobotExpressions.speaking_start (e : RobotExpressions) :
    RobotExpressions × List Action :=
  ({ e with speaking := true, liveSpeakAnimThreads := e.liveSpeakAnimThreads + 1 },
   [Action.spawnSpeakingAnim])

/-- RobotExpressions.speaking_stop: clear `_speaking`, sleep 0.1 s and go
idle.  The animation thread itself exits only when it next reads the flag. -/
def RobotExpressions.speaking_stop (e : RobotExpressions) :
    RobotExpressions × List Action :=
  ({ e with speaking := false }, Action.sleepMs 100 :: idleActs)

/-- Motion commands of RobotExpressions.happy (two bounce iterations). -/
def happyActs : List Action :=
  [Action.gotoTarget "head y 15 mm antennas 0.5 0.5 dur 0.2",
   Action.gotoTarget "head neutral antennas 0.2 0.2 dur 0.2",
   Action.gotoTarget "head y 15 mm antennas 0.5 0.5 dur 0.2",
   Action.gotoTarget "head neutral antennas 0.2 0.2 dur 0.2"]

/-- RobotExpressions.happy. -/
def RobotExpressions.happy (e : RobotExpressions) :
    RobotExpressions × List Action :=
  (e, happyActs)

/-- Motion commands of RobotExpressions.sad. -/
def sadActs : List Action :=
  [Action.gotoTarget "head y neg10 roll 5 antennas neg0.3 neg0.3 dur 0.8"]

/-- RobotExpressions.sad. -/
def RobotExpressions.sad (e : RobotExpressions) :
    RobotExpressions × List Action :=
  (e, sadActs)

/-- Motion commands of RobotExpressions.greeting. -/
def greetingActs : List Action :=
  [Action.gotoTarget "head y 10 mm antennas 0.6 0.6 dur 0.4",
   Action.sleepMs 300,
   Action.gotoTarget "antennas 0.3 0.3 dur 0.3"]

/-- RobotExpressions.greeting. -/
def RobotExpressions.greeting (e : RobotExpressions) :
    RobotExpressions × List Action :=
  (e, greetingActs)

/-- First motion segment of `_speaking_animation` (head z 3, 0.3 s). -/
def segA : Action := Action.gotoTarget "head z 3 deg dur 0.3"

/-- Second motion segment of `_speaking_animation` (head z -3, 0.3 s). -/
def segB : Action := Action.gotoTarget "head z neg3 deg dur 0.3"

/-- The `_speaking_animation` loop of RobotExpressions, as a function of the
successive values read from the shared `_speaking` flag.  The k-th list
element is the value observed at the k-th flag check; an exhausted list
means every further check observes `false` (the flag has been cleared).
Checks happen, in order: at the `while` head, after the first motion
segment, and after the second motion segment, then the loop repeats. -/
def speakingLoopReads : List Bool → List Action
  | [] => []
  | [r] => if r then [segA] else []
  | [r, c] => if r then segA :: (if c then [segB] else []) else []
  | r :: c :: d :: rest =>
    if r then
      segA :: (if c then segB :: (if d then speakingLoopReads rest else []) else [])
    else []

/-- AudioRecorder state: the frame buffer (chunks abstracted to numbers),
the `is_recording` flag and whether the pyaudio stream is open. -/
structure AudioRecorder where
  frames : List Nat
  is_recording : Bool
  streamOpen : Bool
deriving DecidableEq

/-- AudioRecorder.start_recording: a no-op while already recording;
otherwise clear the frame buffer, set the flag, open the stream and spawn
the background read loop. -/
def AudioRecorder.start_recording (r : AudioRecorder) : AudioRecorder × List Action :=
  if r.is_recording then (r, [])
  else ({ frames := [], is_recording := true, streamOpen := true },
        [Action.spawnRecordLoop])

/-- AudioRecorder.stop_recording: `None` when not recording; otherwise clear
the flag, wait 0.1 s for the read loop, close the stream, and return `None`
when no frames were captured, else the finalized buffer. -/
def AudioRecorder.stop_recording (r : AudioRecorder) :
    AudioRecorder × Option (List Nat) × List Action :=
  if !r.is_recording then (r, none, [])
  else
    let r1 : AudioRecorder := { r with is_recording := false, streamOpen := false }
    if r1.frames.isEmpty then (r1, none, [Action.sleepMs 100])
    else (r1, some r1.frames, [Action.sleepMs 100])

/-- InteractiveChat state: the orchestrator flags, the owned components,
the chat model history, plus two modelling fields: the number of live
gesture/reset daemon threads spawned by `_on_press`, and the audio buffer
handed to a spawned `_process_audio` thread that has not completed yet. -/
structure InteractiveChat where
  is_recording : Bool
  is_processing : Bool
  running : Bool
  expressions : RobotExpressions
  recorder : AudioRecorder
  history : List Msg
  liveGestureThreads : Nat
  pendingJob : Option (List Nat)
deriving DecidableEq

/-- The apology line spoken on an empty transcription (source wording uses
a contraction, elided here). -/
def apologyLine : String := "I did not catch that. Could you try again?"

/-- The farewell line of the goodbye path. -/
def farewellLine : String := "Goodbye! It was lovely talking with you. Take care!"

/-- The `try:` block of InteractiveChat._process_audio (lines 265-295).
`sttRes` is the Whisper result (raw text before the wrapper strips it) or an
error, `llmRes` the Groq completion or an error, `ttsOk` whether each
`tts.speak` call returns normally.  The third component records whether an
exception escaped the block (to be caught by `except`). -/
def InteractiveChat.processRecordingTry (sttRes llmRes : Except Unit String)
    (ttsOk : Bool) (s : InteractiveChat) : InteractiveChat × List Action × Bool :=
  match sttRes with
  | Except.error _ => (s, [], true)
  | Except.ok raw =>
    let text := SpeechToText.transcribe raw
    let a0 := [Action.unlinkTempFile]
    if pyStrip text == "" then
      if ttsOk then
        ({ s with is_processing := false },
         a0 ++ [Action.consolePrint "You: (silence)", Action.speak apologyLine],
         false)
      else
        (s, a0 ++ [Action.consolePrint "You: (silence)"], true)
    else
      let a1 := a0 ++ [Action.consolePrint ("You: " ++ text)]
      if isGoodbye text then
        let h := RobotExpressions.happy s.expressions
        if ttsOk then
          let i := RobotExpressions.idle h.1
          ({ s with expressions := i.1, is_processing := false },
           a1 ++ [Action.consolePrint "Reachy: Goodbye! Take care!"] ++ h.2
              ++ [Action.speak farewellLine] ++ i.2,
           false)
        else
          ({ s with expressions := h.1 },
           a1 ++ [Action.consolePrint "Reachy: Goodbye! Take care!"] ++ h.2,
           true)
      else
        let th := RobotExpressions.thinking s.expressions
        match llmRes with
        | Except.error _ =>
          ({ s with expressions := th.1,
                    history := s.history ++ [{ role := "user", content := text }] },
           a1 ++ th.2 ++ [Action.llmCall text],
           true)
        | Except.ok reply =>
          let h2 := (ConversationLLM.chat s.history text reply).1
          let a2 := a1 ++ th.2
              ++ [Action.llmCall text, Action.consolePrint ("Reachy: " ++ reply)]
          let sp := RobotExpressions.speaking_start th.1
          if ttsOk then
            let st := RobotExpressions.speaking_stop sp.1
            ({ s with expressions := st.1, history := h2 },
             a2 ++ sp.2 ++ [Action.speak reply] ++ st.2,
             false)
          else
            ({ s with expressions := sp.1, history := h2 },
             a2 ++ sp.2,
             true)

/-- InteractiveChat._process_audio: the `try:` block, then the `except`
handler (which logs) and the `finally:` block (which always clears
`is_processing`). -/
def InteractiveChat.processRecording (sttRes llmRes : Except Unit String)
    (ttsOk : Bool) (s : InteractiveChat) : InteractiveChat × List Action :=
  let r := InteractiveChat.processRecordingTry sttRes llmRes ttsOk s
  let acts := if r.2.2 then r.2.1 ++ [Action.consolePrint "Error processing"]
              else r.2.1
  ({ r.1 with is_processing := false }, acts)

/-- InteractiveChat._start_recording: guarded on both flags; prints, takes
the listening pose and starts the recorder. -/
def InteractiveChat.start_recording (s : InteractiveChat) :
    InteractiveChat × List Action :=
  if s.is_recording || s.is_processing then (s, [])
  else
    let e := RobotExpressions.listening_start s.expressions
    let r := AudioRecorder.start_recording s.recorder
    ({ s with is_recording := true, expressions := e.1, recorder := r.1 },
     [Action.consolePrint "[Recording... speak now]"] ++ e.2 ++ r.2)

/-- InteractiveChat._stop_and_process: guard on `is_recording`; set
`is_processing`, stop the recorder and the listening pose; with a captured
buffer spawn the `_process_audio` thread, otherwise print a console notice
and clear `is_processing` again. -/
def InteractiveChat.stop_and_process (s : InteractiveChat) :
    InteractiveChat × List Action :=
  if !s.is_recording then (s, [])
  else
    let s1 := { s with is_recording := false, is_processing := true }
    let r := AudioRecorder.stop_recording s1.recorder
    let e := RobotExpressions.listening_stop s1.expressions
    match r.2.1 with
    | some buf =>
      ({ s1 with recorder := r.1, expressions := e.1, pendingJob := some buf },
       [Action.consolePrint "[Processing...]"] ++ r.2.2 ++ e.2
          ++ [Action.spawnProcessJob])
    | none =>
      ({ s1 with recorder := r.1, expressions := e.1, is_processing := false },
       [Action.consolePrint "[Processing...]"] ++ r.2.2 ++ e.2
          ++ [Action.consolePrint "[No audio recorded]"])

/-- Keyboard input as delivered to the pynput callbacks. -/
inductive Key where
  | charKey (c : Char)
  | space
  | enter
deriving DecidableEq

/-- InteractiveChat._on_press.  Character hotkeys spawn their daemon thread
unconditionally (no state guard); SPACE and ENTER are guarded by the
recording/processing flags as in the source. -/
def InteractiveChat.on_press (k : Key) (s : InteractiveChat) :
    InteractiveChat × List Action :=
  match k with
  | Key.charKey c =>
    let ch := c.toLower
    if ch == 'q' then
      ({ s with running := false }, [Action.consolePrint "Quitting"])
    else if ch == 'g' then
      ({ s with liveGestureThreads := s.liveGestureThreads + 1 },
       [Action.consolePrint "[Greeting]", Action.spawnGesture "greeting"])
    else if ch == 'h' then
      ({ s with liveGestureThreads := s.liveGestureThreads + 1 },
       [Action.consolePrint "[Happy]", Action.spawnGesture "happy"])
    else if ch == 's' then
      ({ s with liveGestureThreads := s.liveGestureThreads + 1 },
       [Action.consolePrint "[Sad]", Action.spawnGesture "sad"])
    else if ch == 't' then
      ({ s with liveGestureThreads := s.liveGestureThreads + 1 },
       [Action.consolePrint "[Thinking]", Action.spawnGesture "thinking"])
    else if ch == 'n' then
      ({ s with liveGestureThreads := s.liveGestureThreads + 1 },
       [Action.consolePrint "[Nodding yes]", Action.spawnGesture "nod yes"])
    else if ch == 'm' then
      ({ s with liveGestureThreads := s.liveGestureThreads + 1 },
       [Action.consolePrint "[Shaking no]", Action.spawnGesture "shake no"])
    else if ch == 'r' then
      ({ s with liveGestureThreads := s.liveGestureThreads + 1 },
       [Action.consolePrint "[Reset to idle]", Action.spawnGesture "idle"])
    else (s, [])
  | Key.space =>
    if !s.is_recording && !s.is_processing then InteractiveChat.start_recording s
    else (s, [])
  | Key.enter =>
    if s.is_recording then InteractiveChat.stop_and_process s
    else if !s.is_processing then InteractiveChat.start_recording s
    else (s, [])

/-- InteractiveChat._on_release: releasing SPACE while recording stops and
processes. -/
def InteractiveChat.on_release (k : Key) (s : InteractiveChat) :
    InteractiveChat × List Action :=
  match k with
  | Key.space =>
    if s.is_recording then InteractiveChat.stop_and_process s else (s, [])
  | _ => (s, [])

/-- Completion of a spawned `_process_audio` thread: if a job is pending it
runs `processRecording` with the given collaborator outcomes.  The job body
reads none of the fields an intervening Reset could have written. -/
def InteractiveChat.completeJob (sttRes llmRes : Except Unit String)
    (ttsOk : Bool) (s : InteractiveChat) : InteractiveChat × List Action :=
  match s.pendingJob with
  | none => (s, [])
  | some _ =>
    InteractiveChat.processRecording sttRes llmRes ttsOk { s with pendingJob := none }

/-- Scheduler-level events: key presses and releases, one read-loop frame
append, completion of a pending `_process_audio` thread (with the stubbed
collaborator outcomes), exit of a gesture thread, and exit of a speaking
animation thread (only possible once the `_speaking` flag is false). -/
inductive Event where
  | press (k : Key)
  | release (k : Key)
  | chunk (n : Nat)
  | jobDone (sttRes llmRes : Except Unit String) (ttsOk : Bool)
  | gestureDone
  | speakAnimDone

/-- One scheduler step. -/
def step (ev : Event) (s : InteractiveChat) : InteractiveChat × List Action :=
  match ev with
  | Event.press k => InteractiveChat.on_press k s
  | Event.release k => InteractiveChat.on_release k s
  | Event.chunk n =>
    if s.recorder.is_recording && s.recorder.streamOpen then
      ({ s with recorder := { s.recorder with frames := s.recorder.frames ++ [n] } }, [])
    else (s, [])
  | Event.jobDone a b c => InteractiveChat.completeJob a b c s
  | Event.gestureDone =>
    if s.liveGestureThreads > 0 then
      ({ s with liveGestureThreads := s.liveGestureThreads - 1 }, [])
    else (s, [])
  | Event.speakAnimDone =>
    if !s.expressions.speaking && s.expressions.liveSpeakAnimThreads > 0 then
      ({ s with expressions :=
          { s.expressions with
              liveSpeakAnimThreads := s.expressions.liveSpeakAnimThreads - 1 } }, [])
    else (s, [])

/-- Run a list of events, concatenating the produced actions in order. -/
def runEvents (evs : List Event) (s : InteractiveChat) :
    InteractiveChat × List Action :=
  match evs with
  | [] => (s, [])
  | e :: rest =>
    let r1 := step e s
    let r2 := runEvents rest r1.1
    (r2.1, r1.2 ++ r2.2)

/-- Initial recorder state. -/
def initRecorder : AudioRecorder :=
  { frames := [], is_recording := false, streamOpen := false }

/-- Initial expressions state. -/
def initExpressions : RobotExpressions :=
  { speaking := false, listening := false, liveSpeakAnimThreads := 0 }

/-- Initial InteractiveChat state. -/
def initChat : InteractiveChat :=
  { is_recording := false, is_processing := false, running := true,
    expressions := initExpressions, recorder := initRecorder, history := [],
    liveGestureThreads := 0, pendingJob := none }

/-- VoiceInteraction.speak: speaking_start, blocking synthesis,
speaking_stop. -/
def VoiceInteraction.speak (text : String) (e : RobotExpressions) :
    RobotExpressions × List Action :=
  let s1 := RobotExpressions.speaking_start e
  let s2 := RobotExpressions.speaking_stop s1.1
  (s2.1, s1.2 ++ [Action.speak text] ++ s2.2)

/-- VoiceInteraction.conversation_turn.  `userInput` is the (already
stripped) transcription returned by `listen`, `reply` the stub for the chat
completion.  Returns the stored history, the expressions state, the actions,
and the `(user_input, response)` pair the method returns.  Note the chat
model is invoked for every non-blank input: there is no goodbye check
here. -/
def VoiceInteraction.conversation_turn (userInput reply : String)
    (hist : List Msg) (e : RobotExpressions) :
    List Msg × RobotExpressions × List Action × String × String :=
  let l1 := RobotExpressions.listening_start e
  let l2 := RobotExpressions.listening_stop l1.1
  let aListen := l1.2 ++ l2.2
  if pyStrip userInput == "" then
    let resp := "I did not quite catch that. Could you say that again?"
    let sp := VoiceInteraction.speak resp l2.1
    (hist, sp.1, aListen ++ sp.2, "", resp)
  else
    let th := RobotExpressions.thinking l2.1
    let ch := ConversationLLM.chat hist userInput reply
    let sp := VoiceInteraction.speak reply th.1
    (ch.1, sp.1,
     aListen ++ th.2 ++ [Action.llmCall userInput] ++ sp.2, userInput, reply)

/-- The goodbye lexicon used by VoiceInteraction.run_conversation
(line 428): only three entries, no "quit" and no "exit". -/
def goodbyeWordsRunConv : List String := ["bye", "goodbye", "see you"]

/-- The goodbye test run_conversation applies to the user input returned by
`conversation_turn`, after the turn has completed. -/
def runConvGoodbyeCheck (t : String) : Bool :=
  goodbyeWordsRunConv.any (fun w => pyIn w (pyLower t))

/-- Whether a character list starts with a non-whitespace character (or is
empty): no leading whitespace. -/
def noLeadWS (l : List Char) : Bool :=
  match l with
  | [] => true
  | c :: _ => !isPySpace c

/-- Whether a character list ends with a non-whitespace character (or is
empty): no trailing whitespace. -/
def noTrailWS (l : List Char) : Bool :=
  match l.getLast? with
  | none => true
  | some c => !isPySpace c

/-- The five discrete gesture hotkeys of the `_on_press` dispatch together
with the console label printed and the cue spawned (the thinking hotkey `t`
is handled identically but is not named by the design). -/
def gestureHotkeys : List (Char × String × String) :=
  [('g', "[Greeting]", "greeting"), ('h', "[Happy]", "happy"),
   ('s', "[Sad]", "sad"), ('n', "[Nodding yes]", "nod yes"),
   ('m', "[Shaking no]", "shake no")]

/-- Whether an action is a synthesized utterance. -/
def isSpeakAction : Action → Bool
  | Action.speak _ => true
  | _ => false

/-- Event trace for the stale-result scenario: toggle recording on, capture
one frame, toggle off (which spawns the `_process_audio` thread), press the
reset hotkey, and only then let the spawned thread complete with a
successful transcription and chat completion. -/
def resetRaceEvents : List Event :=
  [Event.press Key.enter, Event.chunk 7, Event.press Key.enter,
   Event.press (Key.charKey 'r'),
   Event.jobDone (Except.ok "hello") (Except.ok "hi there") true]

/-- A state in the middle of processing a turn (`is_processing` set). -/
def busyChat : InteractiveChat := { initChat with is_processing := true }

/-- A state recording with no frames captured yet: stop follows start before
the read loop appended anything. -/
def emptyCaptureChat : InteractiveChat :=
  { initChat with
    is_recording := true,
    recorder := { frames := [], is_recording := true, streamOpen := true } }

/-- One ConversationLLM.chat call with fixed stub strings, for iteration. -/
def chatStub (h : List Msg) : List Msg := (ConversationLLM.chat h "u" "a").1

/-- The stored conversation history after `n` chat calls. -/
def iterChat : Nat → List Msg
  | 0 => []
  | n + 1 => chatStub (iterChat n)

/-! ## Helper lemmas -/

/-- The actions and the exception flag produced by the `_process_audio` body
depend only on the collaborator outcomes, not on the orchestrator state: the
body consults no flag or counter that another handler could have written. -/
theorem processRecordingTry_acts (a b : Except Unit String) (c : Bool)
    (s t : InteractiveChat) :
    (InteractiveChat.processRecordingTry a b c s).2
      = (InteractiveChat.processRecordingTry a b c t).2 := by
  cases a with
  | error e => rfl
  | ok raw =>
    cases b <;>
      simp only [InteractiveChat.processRecordingTry, RobotExpressions.happy,
        RobotExpressions.idle, RobotExpressions.thinking,
        RobotExpressions.speaking_start, RobotExpressions.speaking_stop] <;>
      split_ifs <;> rfl

/-- Same statement for the whole `_process_audio` including the except and
finally clauses. -/
theorem processRecording_acts (a b : Except Unit String) (c : Bool)
    (s t : InteractiveChat) :
    (InteractiveChat.processRecording a b c s).2
      = (InteractiveChat.processRecording a b c t).2 := by
  have h := processRecordingTry_acts a b c s t
  simp only [InteractiveChat.processRecording, h]

/-- The reset hotkey handler only spawns an idle-animation thread; it writes
no flag, no buffer and no pending job. -/
theorem on_press_r (s : InteractiveChat) :
    InteractiveChat.on_press (Key.charKey 'r') s
      = ({ s with liveGestureThreads := s.liveGestureThreads + 1 },
         [Action.consolePrint "[Reset to idle]", Action.spawnGesture "idle"]) := rfl

/-- Unrolling one full iteration of the speaking-animation loop under a
still-set flag. -/
theorem speakingLoopReads_rep3 (t : Nat) :
    speakingLoopReads (List.replicate (t + 3) true)
      = segA :: segB :: speakingLoopReads (List.replicate t true) := by
  rw [List.replicate_succ, List.replicate_succ, List.replicate_succ]
  simp [speakingLoopReads]

/-- Allowing the `_speaking` flag to survive one more check adds at most one
motion segment to the speaking-animation loop. -/
theorem speakingLoop_budget_step :
    ∀ t : Nat, (speakingLoopReads (List.replicate (t + 1) true)).length
      ≤ (speakingLoopReads (List.replicate t true)).length + 1
  | 0 => by decide
  | 1 => by decide
  | 2 => by decide
  | t + 3 => by
    have ih := speakingLoop_budget_step t
    have h : t + 3 + 1 = (t + 1) + 3 := by omega
    rw [h, speakingLoopReads_rep3 (t + 1), speakingLoopReads_rep3 t]
    simpa using ih

/-- dropLeadWS returns the empty list exactly on all-whitespace input. -/
theorem dropLeadWS_eq_nil_iff (l : List Char) :
    dropLeadWS l = [] ↔ l.all isPySpace = true := by
  induction l with
  | nil => simp [dropLeadWS]
  | cons c cs ih =>
    by_cases h : isPySpace c <;> simp [dropLeadWS, h, ih]

/-- A nonempty dropLeadWS result starts with a non-whitespace character. -/
theorem dropLeadWS_head (l : List Char) (c : Char) (t : List Char)
    (h : dropLeadWS l = c :: t) : isPySpace c = false := by
  induction l with
  | nil => simp [dropLeadWS] at h
  | cons x xs ih =>
    by_cases hx : isPySpace x
    · rw [dropLeadWS, if_pos hx] at h
      exact ih h
    · rw [dropLeadWS, if_neg hx] at h
      cases h
      simpa using hx

/-- dropLeadWS preserves being all-whitespace in both directions. -/
theorem dropLeadWS_all_iff (l : List Char) :
    (dropLeadWS l).all isPySpace = true ↔ l.all isPySpace = true := by
  constructor
  · intro h
    cases hd : dropLeadWS l with
    | nil => exact (dropLeadWS_eq_nil_iff l).mp hd
    | cons c t =>
      have hc := dropLeadWS_head l c t hd
      rw [hd] at h
      simp [List.all_cons, hc] at h
  · intro h
    rw [(dropLeadWS_eq_nil_iff l).mpr h]
    rfl

/-- dropLeadWS either empties the list or preserves its last element. -/
theorem dropLeadWS_getLast? (l : List Char) :
    dropLeadWS l = [] ∨ (dropLeadWS l).getLast? = l.getLast? := by
  induction l with
  | nil => exact Or.inl rfl
  | cons c cs ih =>
    by_cases h : isPySpace c
    · rw [dropLeadWS, if_pos h]
      cases cs with
      | nil => exact Or.inl ((dropLeadWS_eq_nil_iff []).mpr rfl)
      | cons x xs =>
        rcases ih with h1 | h1
        · exact Or.inl h1
        · exact Or.inr (h1.trans (List.getLast?_cons_cons ..).symm)
    · rw [dropLeadWS, if_neg h]
      exact Or.inr rfl

/-- stripL returns the empty list exactly on all-whitespace input. -/
theorem stripL_eq_nil_iff (l : List Char) :
    stripL l = [] ↔ l.all isPySpace = true := by
  unfold stripL dropTrailWS
  rw [dropLeadWS_eq_nil_iff, List.all_reverse, dropLeadWS_all_iff, List.all_reverse]

/-- A stripped list has no leading whitespace. -/
theorem stripL_noLead (l : List Char) : noLeadWS (stripL l) = true := by
  cases hd : stripL l with
  | nil => rfl
  | cons c t =>
    have := dropLeadWS_head (dropTrailWS l) c t hd
    simp [noLeadWS, this]

/-- A stripped list has no trailing whitespace. -/
theorem stripL_noTrail (l : List Char) : noTrailWS (stripL l) = true := by
  rcases dropLeadWS_getLast? (dropTrailWS l) with h | h
  · unfold stripL
    rw [h]
    rfl
  · unfold stripL
    unfold noTrailWS
    rw [h]
    unfold dropTrailWS
    rw [List.getLast?_reverse]
    cases hd : dropLeadWS l.reverse with
    | nil => rfl
    | cons c t =>
      have := dropLeadWS_head l.reverse c t hd
      simp [this]

/-- An all-whitespace stripped list is empty (strip leaves no whitespace-only
residue). -/
theorem stripL_all_eq_nil (l : List Char)
    (h : (stripL l).all isPySpace = true) : stripL l = [] := by
  cases hd : stripL l with
  | nil => rfl
  | cons c t =>
    have hc := dropLeadWS_head (dropTrailWS l) c t hd
    rw [hd] at h
    simp [List.all_cons, hc] at h

/-! ## Claim theorems -/

/-- C1 counterexample: in the trace toggle-on, one captured frame,
toggle-off (spawning the processing thread), Reset hotkey, thread
completion, the Responder result produced by a call issued before the Reset
still triggers the Speaking transition: the run emits the speaking-animation
spawn and speaks the synthesized reply.  This refutes the claim that a
Reset in flight discards the eventual Responder result. -/
theorem c1_reset_stale_result_counterexample :
    Action.spawnSpeakingAnim ∈ (runEvents resetRaceEvents initChat).2 ∧
    Action.speak "hi there" ∈ (runEvents resetRaceEvents initChat).2 := by
  decide

/-- C1 amended: there is no generation counter and no stale-result guard.
The reset hotkey handler leaves the pending processing job and the
processing flag untouched, and the actions performed when the in-flight
call completes are identical whether or not a Reset was pressed in
between — in particular a Responder result from before the Reset still
drives the Speaking transition. -/
theorem c1_reset_no_discard (s : InteractiveChat) (a b : Except Unit String)
    (c : Bool) :
    ((InteractiveChat.on_press (Key.charKey 'r') s).1.pendingJob = s.pendingJob) ∧
    ((InteractiveChat.on_press (Key.charKey 'r') s).1.is_processing
        = s.is_processing) ∧
    ((InteractiveChat.completeJob a b c
        (InteractiveChat.on_press (Key.charKey 'r') s).1).2
      = (InteractiveChat.completeJob a b c s).2) := by
  refine ⟨rfl, rfl, ?_⟩
  rw [on_press_r]
  cases hp : s.pendingJob with
  | none => simp [InteractiveChat.completeJob, hp]
  | some buf =>
    simp only [InteractiveChat.completeJob, hp]
    exact processRecording_acts a b c _ _

/-- C2 counterexample: pressing the happy hotkey twice (with no thread exit
in between, a legal interleaving since each gesture takes ~0.8 s) spawns two
animation threads and both are live afterwards; neither press cancelled or
awaited the other.  This refutes the at-most-one-live-AnimationHandle
invariant and the cancel-then-start contract. -/
theorem c2_single_animation_counterexample :
    ((runEvents [Event.press (Key.charKey 'h'), Event.press (Key.charKey 'h')]
        initChat).1.liveGestureThreads = 2) ∧
    ((runEvents [Event.press (Key.charKey 'h'), Event.press (Key.charKey 'h')]
        initChat).2
      = [Action.consolePrint "[Happy]", Action.spawnGesture "happy",
         Action.consolePrint "[Happy]", Action.spawnGesture "happy"]) := by
  decide

/-- C2 amended: starting a new animation never cancels or awaits a previous
one: `speaking_start` unconditionally spawns a fresh animation thread
(incrementing the live count whatever its current value, emitting only the
spawn), and each gesture hotkey press does the same, so several animation
threads can be live at once. -/
theorem c2_spawn_without_cancel (s : InteractiveChat) (e : RobotExpressions) :
    ((RobotExpressions.speaking_start e).1.liveSpeakAnimThreads
      = e.liveSpeakAnimThreads + 1) ∧
    ((RobotExpressions.speaking_start e).2 = [Action.spawnSpeakingAnim]) ∧
    ((InteractiveChat.on_press (Key.charKey 'h') s).1.liveGestureThreads
      = s.liveGestureThreads + 1) :=
  ⟨rfl, rfl, rfl⟩

/-- C3 counterexample: "okay bye now" is in the goodbye lexicon, yet
VoiceInteraction.conversation_turn (cited by the claim via
run_conversation) invokes the Responder with exactly that text — the
goodbye check there runs only after the turn, and its lexicon also lacks
"quit" and "exit" even though both are goodbye words of the claim. -/
theorem c3_goodbye_counterexample :
    isGoodbye "okay bye now" = true ∧
    Action.llmCall "okay bye now" ∈
      (VoiceInteraction.conversation_turn "okay bye now" "resp" []
        initExpressions).2.2.1 ∧
    isGoodbye "quit" = true ∧ runConvGoodbyeCheck "quit" = false := by
  decide

/-- C3 amended: in InteractiveChat._process_audio the claim holds: every
non-blank transcription matching the five-word goodbye lexicon takes the
farewell path — the Responder is never invoked, the farewell line is
spoken, no speaking-animation loop is started, and the processing flag is
cleared (state back to Idle).  (In VoiceInteraction.run_conversation the
check happens only after the Responder has already been invoked, and with a
three-word lexicon.) -/
theorem c3_goodbye_farewell_path (raw : String) (b : Except Unit String)
    (s : InteractiveChat)
    (h1 : isGoodbye (SpeechToText.transcribe raw) = true)
    (h2 : (pyStrip (SpeechToText.transcribe raw) == "") = false) :
    (∀ t, Action.llmCall t ∉
        (InteractiveChat.processRecording (Except.ok raw) b true s).2) ∧
    (Action.speak farewellLine ∈
        (InteractiveChat.processRecording (Except.ok raw) b true s).2) ∧
    (Action.spawnSpeakingAnim ∉
        (InteractiveChat.processRecording (Except.ok raw) b true s).2) ∧
    ((InteractiveChat.processRecording (Except.ok raw) b true s).1.is_processing
        = false) := by
  simp [InteractiveChat.processRecording, InteractiveChat.processRecordingTry,
    h1, h2, RobotExpressions.happy, RobotExpressions.idle, happyActs, idleActs]

/-- C3 witness: the farewell path at the concrete input "okay bye now". -/
theorem c3_goodbye_farewell_path_witness :
    (∀ t, Action.llmCall t ∉
        (InteractiveChat.processRecording (Except.ok "okay bye now")
          (Except.ok "x") true initChat).2) ∧
    (Action.speak farewellLine ∈
        (InteractiveChat.processRecording (Except.ok "okay bye now")
          (Except.ok "x") true initChat).2) ∧
    (Action.spawnSpeakingAnim ∉
        (InteractiveChat.processRecording (Except.ok "okay bye now")
          (Except.ok "x") true initChat).2) ∧
    ((InteractiveChat.processRecording (Except.ok "okay bye now")
          (Except.ok "x") true initChat).1.is_processing = false) :=
  c3_goodbye_farewell_path "okay bye now" (Except.ok "x") initChat
    (by decide) (by decide)

/-- C4 counterexample: when the Synthesizer fails while speaking the reply
(after speaking_start), the exception is caught and the processing flag is
cleared, but speaking_stop is never reached: the `_speaking` flag stays set
and the speaking-animation thread stays live — speaking state persists,
refuting the claim that no speaking/processing state survives an error. -/
theorem c4_error_recovery_counterexample :
    ((InteractiveChat.processRecording (Except.ok "hello") (Except.ok "hi")
        false initChat).1.expressions.speaking = true) ∧
    ((InteractiveChat.processRecording (Except.ok "hello") (Except.ok "hi")
        false initChat).1.expressions.liveSpeakAnimThreads = 1) ∧
    ((InteractiveChat.processRecording (Except.ok "hello") (Except.ok "hi")
        false initChat).1.is_processing = false) := by
  decide

/-- C4 amended: collaborator errors in `_process_audio` are caught at the
call site and logged, and the finally clause always clears the processing
flag, so the orchestrator is never left hung in Processing; but the
speaking-animation state can persist when the Synthesizer fails mid-turn. -/
theorem c4_processing_always_cleared (a b : Except Unit String) (c : Bool)
    (s : InteractiveChat) :
    (InteractiveChat.processRecording a b c s).1.is_processing = false ∧
    ((InteractiveChat.processRecordingTry a b c s).2.2 = true →
      Action.consolePrint "Error processing"
        ∈ (InteractiveChat.processRecording a b c s).2) := by
  constructor
  · simp [InteractiveChat.processRecording]
  · intro h
    simp [InteractiveChat.processRecording, h]

/-- C4 witness: a failing Transcriber at a concrete state: the flag is
cleared and the error is logged. -/
theorem c4_processing_always_cleared_witness :
    (InteractiveChat.processRecording (Except.error ()) (Except.ok "x") true
      initChat).1.is_processing = false ∧
    ((InteractiveChat.processRecordingTry (Except.error ()) (Except.ok "x") true
        initChat).2.2 = true →
      Action.consolePrint "Error processing"
        ∈ (InteractiveChat.processRecording (Except.error ()) (Except.ok "x")
            true initChat).2) :=
  c4_processing_always_cleared (Except.error ()) (Except.ok "x") true initChat

/-- C5 counterexample: after six chat calls the stored conversation history
holds twelve entries, exceeding the claimed bound of ten — the stored list
is unbounded; only the request window is bounded. -/
theorem c5_history_bound_counterexample :
    (iterChat 6).length = 12 ∧ ¬((iterChat 6).length ≤ 10) := by
  decide

/-- C5 amended: the conversation history is an ordered role/content
sequence, insertion-order significant, but the stored list grows without
bound (two entries per call); bounding applies only to the request sent to
the model, which is the system prompt followed by the last ten stored
entries (oldest evicted from that window), hence at most eleven messages. -/
theorem c5_history_window (hist : List Msg) (u r : String) :
    ((ConversationLLM.chat hist u r).1.length = hist.length + 2) ∧
    ((ConversationLLM.chat hist u r).2.length ≤ 11) ∧
    ((ConversationLLM.chat hist u r).2
      = systemPromptMsg :: lastN 10 (hist ++ [{ role := "user", content := u }])) := by
  refine ⟨?_, ?_, rfl⟩
  · simp [ConversationLLM.chat]
  · simp [ConversationLLM.chat, lastN]
    omega

/-- C6 counterexample: with processing in progress (state not Idle), the
happy hotkey is not rejected: the handler prints and spawns the gesture
thread exactly as from Idle.  This refutes the Idle-only guard. -/
theorem c6_gesture_guard_counterexample :
    ((InteractiveChat.on_press (Key.charKey 'h') busyChat).2
      = [Action.consolePrint "[Happy]", Action.spawnGesture "happy"]) ∧
    ((InteractiveChat.on_press (Key.charKey 'h') busyChat).1.liveGestureThreads
      = 1) ∧
    busyChat.is_processing = true := by
  decide

/-- C6 amended: the gesture hotkeys are accepted in every state — the
`_on_press` dispatch has no Idle guard, spawning the one-shot gesture
thread unconditionally; the press leaves the recording/processing flags (and
every other orchestrator field except the live-thread count) unchanged. -/
theorem c6_gesture_accepted_any_state (c : Char) (lbl cue : String)
    (s : InteractiveChat) (h : (c, lbl, cue) ∈ gestureHotkeys) :
    InteractiveChat.on_press (Key.charKey c) s
      = ({ s with liveGestureThreads := s.liveGestureThreads + 1 },
         [Action.consolePrint lbl, Action.spawnGesture cue]) := by
  simp only [gestureHotkeys, List.mem_cons, List.not_mem_nil, or_false,
    Prod.mk.injEq] at h
  rcases h with ⟨rfl, rfl, rfl⟩ | ⟨rfl, rfl, rfl⟩ | ⟨rfl, rfl, rfl⟩ |
    ⟨rfl, rfl, rfl⟩ | ⟨rfl, rfl, rfl⟩ <;> rfl

/-- C6 witness: the happy hotkey accepted while processing. -/
theorem c6_gesture_accepted_any_state_witness :
    InteractiveChat.on_press (Key.charKey 'h') busyChat
      = ({ busyChat with liveGestureThreads := busyChat.liveGestureThreads + 1 },
         [Action.consolePrint "[Happy]", Action.spawnGesture "happy"]) :=
  c6_gesture_accepted_any_state 'h' "[Happy]" "happy" busyChat (by decide)

/-- C7 counterexample: stopping with no captured frames does return an empty
result and the orchestrator ends not processing, but no utterance at all is
synthesized — the silence-handling apology is never spoken on this path (it
exists only for empty transcriptions), refuting the claimed apology-path
feedback. -/
theorem c7_empty_capture_counterexample :
    ((AudioRecorder.stop_recording emptyCaptureChat.recorder).2.1 = none) ∧
    ((InteractiveChat.stop_and_process emptyCaptureChat).2.all
        (fun a => !(isSpeakAction a)) = true) ∧
    ((InteractiveChat.stop_and_process emptyCaptureChat).1.is_processing
        = false) := by
  decide

/-- C7 amended: StopRecording with no captured frames returns empty, and the
orchestrator returns to Idle without starting the Processing pipeline: the
processing flag (set transiently inside the handler) ends cleared, no
processing thread is spawned, and the user feedback is a console notice, not
a spoken apology. -/
theorem c7_empty_capture_no_processing (s : InteractiveChat)
    (h1 : s.is_recording = true) (h2 : s.recorder.frames = []) :
    ((AudioRecorder.stop_recording s.recorder).2.1 = none) ∧
    ((InteractiveChat.stop_and_process s).1.is_processing = false) ∧
    ((InteractiveChat.stop_and_process s).1.pendingJob = s.pendingJob) ∧
    (Action.spawnProcessJob ∉ (InteractiveChat.stop_and_process s).2) ∧
    (∀ t, Action.speak t ∉ (InteractiveChat.stop_and_process s).2) ∧
    (Action.consolePrint "[No audio recorded]"
        ∈ (InteractiveChat.stop_and_process s).2) := by
  have hstop : (AudioRecorder.stop_recording s.recorder).2.1 = none := by
    unfold AudioRecorder.stop_recording
    by_cases hr : s.recorder.is_recording <;> simp [hr, h2]
  refine ⟨hstop, ?_⟩
  by_cases hr : s.recorder.is_recording <;>
    simp [InteractiveChat.stop_and_process, AudioRecorder.stop_recording,
      RobotExpressions.listening_stop, idleActs, h1, h2, hr]

/-- C7 witness: the empty-capture state, concretely. -/
theorem c7_empty_capture_no_processing_witness :
    ((AudioRecorder.stop_recording emptyCaptureChat.recorder).2.1 = none) ∧
    ((InteractiveChat.stop_and_process emptyCaptureChat).1.is_processing
        = false) ∧
    ((InteractiveChat.stop_and_process emptyCaptureChat).1.pendingJob
        = emptyCaptureChat.pendingJob) ∧
    (Action.spawnProcessJob
        ∉ (InteractiveChat.stop_and_process emptyCaptureChat).2) ∧
    (∀ t, Action.speak t ∉ (InteractiveChat.stop_and_process emptyCaptureChat).2) ∧
    (Action.consolePrint "[No audio recorded]"
        ∈ (InteractiveChat.stop_and_process emptyCaptureChat).2) :=
  c7_empty_capture_no_processing emptyCaptureChat (by decide) (by decide)

/-- C8: AudioRecorder.start_recording is idempotent: after one call the
recorder is recording, and a second call without an intervening stop returns
the state completely unchanged and performs no action (no buffer reset, no
flag write, no new stream, no new thread). -/
theorem c8_start_recording_idempotent (r : AudioRecorder) :
    AudioRecorder.start_recording (AudioRecorder.start_recording r).1
      = ((AudioRecorder.start_recording r).1, []) ∧
    (AudioRecorder.start_recording r).1.is_recording = true := by
  unfold AudioRecorder.start_recording
  by_cases h : r.is_recording <;> simp [h]

/-- C9: the speaking-animation loop checks the cancellation flag between
each discrete motion segment: letting the flag survive one more check adds
at most one motion segment to the run, so at most one further segment is
issued after the flag is cleared; in particular a flag cleared after the
first segment stops the loop before the second, and a flag observed false at
loop entry issues nothing. -/
theorem c9_speaking_cancellation_latency :
    (∀ t : Nat, (speakingLoopReads (List.replicate (t + 1) true)).length
      ≤ (speakingLoopReads (List.replicate t true)).length + 1) ∧
    speakingLoopReads [true, false] = [segA] ∧
    speakingLoopReads [false] = [] :=
  ⟨speakingLoop_budget_step, by decide, rfl⟩

/-- C10: the Transcriber wrapper strips the backend text: its result has no
leading and no trailing whitespace, it is empty exactly when the backend
text was whitespace-only, and the orchestrator's empty-text check
(`not text.strip()`) on the result coincides with the result being exactly
the empty string. -/
theorem c10_transcribe_stripped (raw : String) :
    noLeadWS (SpeechToText.transcribe raw).data = true ∧
    noTrailWS (SpeechToText.transcribe raw).data = true ∧
    (SpeechToText.transcribe raw = "" ↔ raw.data.all isPySpace = true) ∧
    (pyStrip (SpeechToText.transcribe raw) = ""
      ↔ SpeechToText.transcribe raw = "") := by
  refine ⟨stripL_noLead raw.data, stripL_noTrail raw.data, ?_, ?_⟩
  · rw [String.ext_iff]
    show stripL raw.data = [] ↔ _
    exact stripL_eq_nil_iff raw.data
  · constructor
    · intro h
      rw [String.ext_iff] at h ⊢
      replace h : stripL (stripL raw.data) = [] := h
      have h2 : (stripL raw.data).all isPySpace = true :=
        (stripL_eq_nil_iff (stripL raw.data)).mp h
      exact stripL_all_eq_nil raw.data h2
    · intro h
      rw [h]
      rfl

end Reachy
